import Mathlib

/-!
Shallow embedding of `src/parser.py` (Regzon/simple-expression-parser):
a lexer, a recursive-descent parser for the grammar
`relation := term (('<'|'>'|'=') term)?`, `term := factor (('+'|'-') factor)*`,
`factor := primary ('*' primary)*`, `primary := Number | '(' relation ')'`,
an AST with `calculate` (evaluation) and `render` (the `__str__` trace),
together with theorems settling the specification claims.

Python tokens are strings (a digit run or a single symbol), with `None` as
the end-of-input marker; we model a token as `String` and the parser's
current-token slot as `Option String`.  The Python lexer keeps the full
source and a monotonically advancing index `self.index`; we model the
cursor as the remaining suffix `source[index:]` of the character list,
which the index determines and which advances by dropping consumed
characters (structural recursion in place of the index-bounded `while`
loops).  Python's Unicode `str.isdigit` is modelled by `pyCharIsDigit`:
the ASCII decimal digits plus a documented table of the non-ASCII
characters Python accepts as digits (superscripts, subscripts and the
decimal digits of other scripts); on ASCII input, where every theorem
below except the C8 counterexample lives, the model and Python agree
exactly.

Python exceptions are modelled by `Except`: `LexicalError` and
`SyntaxError` become structured error values, and the `AttributeError`
that Python raises when `parse_primary` calls `.isdigit()` on the `None`
end marker becomes its own error constructor.  The mutually recursive
parser takes a fuel argument for termination; fuel exhaustion is a
distinct error that never occurs at the fuel bounds used below.
-/

namespace SimpleExprParser

/-- `Lexer.ALLOWED_SYMBOLS`: the eight single-character symbol tokens. -/
def ALLOWED_SYMBOLS : List Char := ['<', '>', '=', '+', '-', '*', '(', ')']

/-- The non-ASCII part of this model of Python `str.isdigit`: a table of
Unicode characters with Numeric_Type Decimal or Digit — the superscript
and subscript digits and the decimal digits of the Arabic-Indic,
Extended Arabic-Indic, Devanagari and fullwidth scripts.  Python's full
table is larger still; every character above 127 that any theorem below
touches is listed here, and every listed character satisfies Python
`str.isdigit`. -/
def PYTHON_NON_ASCII_DIGITS : List Char :=
  ['¹', '²', '³', '⁰', '⁴', '⁵', '⁶', '⁷', '⁸', '⁹',
   '₀', '₁', '₂', '₃', '₄', '₅', '₆', '₇', '₈', '₉',
   '٠', '١', '٢', '٣', '٤', '٥', '٦', '٧', '٨', '٩',
   '۰', '۱', '۲', '۳', '۴', '۵', '۶', '۷', '۸', '۹',
   '०', '१', '२', '३', '४', '५', '६', '७', '८', '९',
   '０', '１', '２', '３', '４', '５', '６', '７', '８', '９']

/-- Python `str.isdigit` on a single character: the ASCII decimal digits
`0`-`9` together with the non-ASCII digit characters
(`PYTHON_NON_ASCII_DIGITS`). -/
def pyCharIsDigit (c : Char) : Bool :=
  c.isDigit || decide (c ∈ PYTHON_NON_ASCII_DIGITS)

/-- `Lexer.next_number`: greedily consume digit characters from the front of
the remaining input, returning the digit run (as a string) and the
remaining input just past it.  Mirrors the Python `while` loop character
by character. -/
def next_number : List Char → String × List Char
  | [] => ("", [])
  | c :: cs =>
    if pyCharIsDigit c then
      let r := next_number cs
      (String.singleton c ++ r.1, r.2)
    else
      ("", c :: cs)

/-- `Lexer.next_token`: skip spaces; a character accepted by Python
`str.isdigit` starts a number token, an allowed symbol is a
one-character token, any other character is a `LexicalError` carrying
that character (the `.error` case); at end of input return the end
marker `none` with the cursor unchanged. -/
def lexNextToken : List Char → Except Char (Option String × List Char)
  | [] => .ok (none, [])
  | c :: cs =>
    if pyCharIsDigit c then
      let r := next_number (c :: cs)
      .ok (some r.1, r.2)
    else if c ∈ ALLOWED_SYMBOLS then
      .ok (some (String.singleton c), cs)
    else if c = ' ' then
      lexNextToken cs
    else
      .error c

/-- The AST node hierarchy of `parser.py`, one constructor per concrete
class (`Integer`, `Parenthesized`, `Less`, `Greater`, `Equal`,
`SingleRelation`, `AddTerm`, `SubTerm`, `SingleTerm`, `Factor`,
`SingleFactor`).  `Integer` stores the digit-run string exactly as the
Python class stores `self.number`. -/
inductive Expr where
  | Integer (number : String)
  | Parenthesized (expression : Expr)
  | Less (left right : Expr)
  | Greater (left right : Expr)
  | Equal (left right : Expr)
  | SingleRelation (left : Expr)
  | AddTerm (left right : Expr)
  | SubTerm (left right : Expr)
  | SingleTerm (left : Expr)
  | Factor (left right : Expr)
  | SingleFactor (left : Expr)
deriving Repr, DecidableEq

/-- Python `int(number)` on a decimal digit run: the decimal value of the
digits, folded left to right.  Faithful on runs of `0`-`9`, the only
strings on which any theorem below evaluates it (on a non-decimal digit
token Python `int` raises `ValueError`, which no claim concerns). -/
def intOfDigits (ds : List Char) : Nat :=
  ds.foldl (fun a c => 10 * a + (c.toNat - 48)) 0

/-- The `calculate` methods: evaluation to a (mathematical, unbounded)
integer, exactly one equation per Python class. -/
def calculate : Expr → Int
  | .Integer number => Int.ofNat (intOfDigits number.data)
  | .Parenthesized e => calculate e
  | .Less l r => if calculate l < calculate r then 1 else 0
  | .Greater l r => if calculate l > calculate r then 1 else 0
  | .Equal l r => if calculate l = calculate r then 1 else 0
  | .SingleRelation l => calculate l
  | .AddTerm l r => calculate l + calculate r
  | .SubTerm l r => calculate l - calculate r
  | .SingleTerm l => calculate l
  | .Factor l r => calculate l * calculate r
  | .SingleFactor l => calculate l

/-- The `__str__` methods: the structural trace `VariantName(child)` or
`VariantName(child1,child2)`, with no whitespace. -/
def render : Expr → String
  | .Integer number => "Integer(" ++ number ++ ")"
  | .Parenthesized e => "Parenthesized(" ++ render e ++ ")"
  | .Less l r => "Less(" ++ render l ++ "," ++ render r ++ ")"
  | .Greater l r => "Greater(" ++ render l ++ "," ++ render r ++ ")"
  | .Equal l r => "Equal(" ++ render l ++ "," ++ render r ++ ")"
  | .SingleRelation l => "SingleRelation(" ++ render l ++ ")"
  | .AddTerm l r => "AddTerm(" ++ render l ++ "," ++ render r ++ ")"
  | .SubTerm l r => "SubTerm(" ++ render l ++ "," ++ render r ++ ")"
  | .SingleTerm l => "SingleTerm(" ++ render l ++ ")"
  | .Factor l r => "Factor(" ++ render l ++ "," ++ render r ++ ")"
  | .SingleFactor l => "SingleFactor(" ++ render l ++ ")"

/-- Errors a parse can abort with.  `lexical c` is `LexicalError` carrying
the offending character; `expectedIntegerOrParen` and `expectedCloseParen`
are the two `raise SyntaxError` sites of `parse_primary`, carrying what
was found; `attrError` is the Python `AttributeError` raised when
`parse_primary` evaluates `token.isdigit()` while `token` is `None`
(end of input at a primary position); `fuel` marks fuel exhaustion of the
embedding and corresponds to no Python behaviour. -/
inductive PError where
  | lexical (c : Char)
  | expectedIntegerOrParen (got : String)
  | expectedCloseParen (got : Option String)
  | attrError
  | fuel
deriving Repr, DecidableEq

/-- `PError` is a `SyntaxError` exactly on the two `raise SyntaxError`
sites of `parse_primary`. -/
def PError.isSyntaxError : PError → Bool
  | .expectedIntegerOrParen _ => true
  | .expectedCloseParen _ => true
  | _ => false

/-- The parser's mutable state: the lexer cursor (`rest`, the not yet
consumed suffix of the source) plus the single current-token slot
`self.token`. -/
structure ParserState where
  rest : List Char
  token : Option String
deriving Repr, DecidableEq

/-- `Parser.next_token`: pull one token from the lexer, store it in the
current-token slot, advance the lexer cursor. -/
def pNextToken (st : ParserState) : Except PError ParserState :=
  match lexNextToken st.rest with
  | .error c => .error (.lexical c)
  | .ok (t, r) => .ok { rest := r, token := t }

/-- Python `token.isdigit()` on a string: nonempty and all digits. -/
def pyStrIsDigit (s : String) : Bool :=
  !s.data.isEmpty && s.data.all pyCharIsDigit

mutual

/-- `Parser.parse_relation` (also `Parser.parse`, which just calls it):
parse a term; if the current token is `<`, `>` or `=`, parse one more term
and build the comparison node, else wrap in `SingleRelation`. -/
def parse_relation : Nat → ParserState → Except PError (Expr × ParserState)
  | 0, _ => .error .fuel
  | fuel + 1, st => do
    let (left, st) ← parse_term fuel st
    match st.token with
    | some "<" => do
      let (right, st) ← parse_term fuel st
      pure (.Less left right, st)
    | some ">" => do
      let (right, st) ← parse_term fuel st
      pure (.Greater left right, st)
    | some "=" => do
      let (right, st) ← parse_term fuel st
      pure (.Equal left right, st)
    | _ => pure (.SingleRelation left, st)

/-- `Parser.parse_term`: parse a factor, then run the `+`/`-` fold loop
(`term_loop`), starting with `right = None`. -/
def parse_term : Nat → ParserState → Except PError (Expr × ParserState)
  | 0, _ => .error .fuel
  | fuel + 1, st => do
    let (left, st) ← parse_factor fuel st
    term_loop fuel left none st

/-- The `while token in ('+', '-')` loop of `parse_term`; `right` tracks
the Python local of the same name, so the `SingleTerm` wrap happens
exactly when the loop never ran.  The operator token is captured before
the recursive `parse_factor` call, as in the Python code. -/
def term_loop : Nat → Expr → Option Expr → ParserState → Except PError (Expr × ParserState)
  | 0, _, _, _ => .error .fuel
  | fuel + 1, left, right, st =>
    if st.token = some "+" || st.token = some "-" then do
      let tk := st.token
      let (r, st2) ← parse_factor fuel st
      let newLeft := if tk = some "+" then Expr.AddTerm left r else Expr.SubTerm left r
      term_loop fuel newLeft (some r) st2
    else
      match right with
      | none => pure (.SingleTerm left, st)
      | some _ => pure (left, st)

/-- `Parser.parse_factor`: parse a primary, fetch the lookahead token,
then run the `*` fold loop (`factor_loop`), starting with `right = None`. -/
def parse_factor : Nat → ParserState → Except PError (Expr × ParserState)
  | 0, _ => .error .fuel
  | fuel + 1, st => do
    let (left, st) ← parse_primary fuel st
    let st ← pNextToken st
    factor_loop fuel left none st

/-- The `while token == '*'` loop of `parse_factor`; each iteration parses
a primary, folds it into a `Factor` node whose left child is the
accumulated factor, and fetches the next lookahead; `SingleFactor` wraps
exactly when the loop never ran. -/
def factor_loop : Nat → Expr → Option Expr → ParserState → Except PError (Expr × ParserState)
  | 0, _, _, _ => .error .fuel
  | fuel + 1, left, right, st =>
    if st.token = some "*" then do
      let (r, st2) ← parse_primary fuel st
      let st3 ← pNextToken st2
      factor_loop fuel (Expr.Factor left r) (some r) st3
    else
      match right with
      | none => pure (.SingleFactor left, st)
      | some _ => pure (left, st)

/-- `Parser.parse_primary`: fetch a token; the Python code then evaluates
`token.isdigit()`, which on the `None` end marker raises `AttributeError`
(modelled as `.error .attrError`); a digit run becomes `Integer`; `(`
recursively parses a relation and requires `)` as the current token, else
`SyntaxError`; any other token is a `SyntaxError` (integer or parenthesis
expected). -/
def parse_primary : Nat → ParserState → Except PError (Expr × ParserState)
  | 0, _ => .error .fuel
  | fuel + 1, st => do
    let st ← pNextToken st
    match st.token with
    | none => .error .attrError
    | some s =>
      if pyStrIsDigit s then
        pure (.Integer s, st)
      else if s = "(" then do
        let (e, st2) ← parse_relation fuel st
        if st2.token = some ")" then
          pure (.Parenthesized e, st2)
        else
          .error (.expectedCloseParen st2.token)
      else
        .error (.expectedIntegerOrParen s)

end

/-- `Parser.__init__`: lexer cursor at the start of the source, current
token `None`. -/
def initState (s : String) : ParserState :=
  { rest := s.data, token := none }

/-- Fuel bound, generous enough that the parse of the inputs considered
below never exhausts it (each unit of nesting or iteration consumes input). -/
def stdFuel (s : String) : Nat := 2 * s.data.length + 10

/-- `Parser(s).parse()`: run `parse_relation` from the initial state. -/
def parseFull (s : String) : Except PError (Expr × ParserState) :=
  parse_relation (stdFuel s) (initState s)

/-- The parse tree alone (the value `Parser.parse` returns). -/
def parseExpr (s : String) : Except PError Expr :=
  (parseFull s).map Prod.fst

/-- `Parser(s).parse().calculate()`: end-to-end evaluation. -/
def evalParse (s : String) : Except PError Int :=
  (parseExpr s).map calculate

/-- `str(Parser(s).parse())`: end-to-end structural trace. -/
def renderParse (s : String) : Except PError String :=
  (parseExpr s).map render

/-- The decimal digit characters of `n`, most significant first: the
standard base-10 rendering, with no sign (the string form of a
non-negative integer). -/
def natDecimalChars (n : Nat) : List Char :=
  if n < 10 then [Nat.digitChar n]
  else natDecimalChars (n / 10) ++ [Nat.digitChar (n % 10)]
termination_by n
decreasing_by simp_wf; exact Nat.div_lt_self (by omega) (by omega)

/-- The decimal string form of `n`, without a leading sign. -/
def natDecimalRepr (n : Nat) : String := String.mk (natDecimalChars n)


/-! General lemmas about the lexer. -/

deriving instance DecidableEq for Except

theorem singleton_append_mk (c : Char) (l : List Char) :
    String.singleton c ++ String.mk l = String.mk (c :: l) := rfl

/-- An ASCII decimal digit is a Python digit. -/
theorem pyCharIsDigit_of_isDigit {c : Char} (h : c.isDigit = true) :
    pyCharIsDigit c = true := by
  simp [pyCharIsDigit, h]

/-- On ASCII characters the model of Python `str.isdigit` coincides with
the decimal-digit test: every listed non-ASCII digit is above 127. -/
theorem pyCharIsDigit_eq_false_of_ascii {c : Char} (hascii : c.toNat ≤ 127)
    (hnd : c.isDigit = false) : pyCharIsDigit c = false := by
  have hnotmem : c ∉ PYTHON_NON_ASCII_DIGITS := by
    intro hmem
    have hall : ∀ d ∈ PYTHON_NON_ASCII_DIGITS, 127 < d.toNat := by decide
    have := hall c hmem
    omega
  simp [pyCharIsDigit, hnd, hnotmem]

/-- A run of decimal digits is a run of Python digits. -/
theorem all_pyCharIsDigit_of_all_isDigit {ds : List Char}
    (hd : ds.all Char.isDigit = true) : ds.all pyCharIsDigit = true := by
  rw [List.all_eq_true] at hd ⊢
  exact fun x hx => pyCharIsDigit_of_isDigit (hd x hx)

/-- `next_number` on an all-digit input consumes it whole. -/
theorem next_number_digits (ds : List Char) (hd : ds.all Char.isDigit = true) :
    next_number ds = (String.mk ds, []) := by
  induction ds with
  | nil => rfl
  | cons c cs ih =>
    simp only [List.all_cons, Bool.and_eq_true] at hd
    simp only [next_number, if_pos (pyCharIsDigit_of_isDigit hd.1), ih hd.2,
      singleton_append_mk]

/-- The lexer turns a nonempty all-digit input into a single number token
and exhausts the input. -/
theorem lexNextToken_digits (ds : List Char) (hne : ds ≠ [])
    (hd : ds.all Char.isDigit = true) :
    lexNextToken ds = .ok (some (String.mk ds), []) := by
  cases ds with
  | nil => exact absurd rfl hne
  | cons c cs =>
    simp only [List.all_cons, Bool.and_eq_true] at hd
    simp only [lexNextToken, if_pos (pyCharIsDigit_of_isDigit hd.1),
      next_number_digits (c :: cs) (by simp [hd.1, hd.2])]

/-- Scanning from a position whose first non-space character is no
Python digit, no allowed symbol and no space fails with exactly that
character. -/
theorem lexNextToken_bad_char (pre : List Char) (c : Char) (post : List Char)
    (hpre : pre.all (fun x => x = ' ') = true)
    (hnd : pyCharIsDigit c = false) (hna : c ∉ ALLOWED_SYMBOLS) (hns : c ≠ ' ') :
    lexNextToken (pre ++ c :: post) = .error c := by
  induction pre with
  | nil =>
    rw [List.nil_append]
    simp only [lexNextToken]
    rw [if_neg (by simp [hnd]), if_neg hna, if_neg hns]
  | cons a pre ih =>
    simp only [List.all_cons, Bool.and_eq_true, decide_eq_true_eq] at hpre
    obtain ⟨ha, hpre⟩ := hpre
    subst ha
    rw [List.cons_append]
    simp only [lexNextToken]
    rw [if_neg (by decide), if_neg (by decide), if_pos trivial]
    exact ih hpre

/-! Parsing a pure digit run. -/

theorem except_pure_eq_ok {ε α : Type} (a : α) :
    (pure a : Except ε α) = Except.ok a := rfl

theorem pNextToken_digits (ds : List Char) (hne : ds ≠ [])
    (hd : ds.all Char.isDigit = true) :
    pNextToken ⟨ds, none⟩ = .ok ⟨[], some (String.mk ds)⟩ := by
  rw [pNextToken]
  simp only [lexNextToken_digits ds hne hd]

theorem pNextToken_end (tk : Option String) :
    pNextToken ⟨[], tk⟩ = .ok ⟨[], none⟩ := rfl

theorem parse_primary_digits (f : Nat) (ds : List Char) (hne : ds ≠ [])
    (hd : ds.all Char.isDigit = true) :
    parse_primary (f + 1) ⟨ds, none⟩ =
      .ok (.Integer (String.mk ds), ⟨[], some (String.mk ds)⟩) := by
  have hpy : pyStrIsDigit (String.mk ds) = true := by
    simp [pyStrIsDigit, all_pyCharIsDigit_of_all_isDigit hd]
    cases ds with
    | nil => exact absurd rfl hne
    | cons a l => simp
  simp only [parse_primary, bind, Except.bind, pNextToken_digits ds hne hd, hpy, if_pos]
  rfl

theorem parse_factor_digits (f : Nat) (ds : List Char) (hne : ds ≠ [])
    (hd : ds.all Char.isDigit = true) :
    parse_factor (f + 2) ⟨ds, none⟩ =
      .ok (.SingleFactor (.Integer (String.mk ds)), ⟨[], none⟩) := by
  simp [show f + 2 = (f + 1) + 1 from rfl, parse_factor, bind, Except.bind,
    parse_primary_digits f ds hne hd, pNextToken_end, factor_loop, except_pure_eq_ok]

theorem parse_term_digits (f : Nat) (ds : List Char) (hne : ds ≠ [])
    (hd : ds.all Char.isDigit = true) :
    parse_term (f + 3) ⟨ds, none⟩ =
      .ok (.SingleTerm (.SingleFactor (.Integer (String.mk ds))), ⟨[], none⟩) := by
  simp [show f + 3 = (f + 2) + 1 from rfl, parse_term, bind, Except.bind,
    parse_factor_digits f ds hne hd, term_loop, except_pure_eq_ok]

theorem parse_relation_digits (f : Nat) (ds : List Char) (hne : ds ≠ [])
    (hd : ds.all Char.isDigit = true) :
    parse_relation (f + 4) ⟨ds, none⟩ =
      .ok (.SingleRelation (.SingleTerm (.SingleFactor (.Integer (String.mk ds)))),
        ⟨[], none⟩) := by
  simp [show f + 4 = (f + 3) + 1 from rfl, parse_relation, bind, Except.bind,
    parse_term_digits f ds hne hd, except_pure_eq_ok]

theorem parseFull_digits (ds : List Char) (hne : ds ≠ [])
    (hd : ds.all Char.isDigit = true) :
    parseFull (String.mk ds) =
      .ok (.SingleRelation (.SingleTerm (.SingleFactor (.Integer (String.mk ds)))),
        ⟨[], none⟩) := by
  have hfuel : stdFuel (String.mk ds) = (2 * ds.length + 6) + 4 := by
    simp only [stdFuel]
  rw [parseFull, hfuel]
  exact parse_relation_digits (2 * ds.length + 6) ds hne hd

theorem evalParse_digits (ds : List Char) (hne : ds ≠ [])
    (hd : ds.all Char.isDigit = true) :
    evalParse (String.mk ds) = .ok (Int.ofNat (intOfDigits ds)) := by
  rw [evalParse, parseExpr, parseFull_digits ds hne hd]
  rfl

/-! The decimal form of a natural number. -/

theorem digitChar_isDigit {d : Nat} (h : d < 10) :
    (Nat.digitChar d).isDigit = true := by
  interval_cases d <;> decide

theorem digitChar_toNat {d : Nat} (h : d < 10) :
    (Nat.digitChar d).toNat - 48 = d := by
  interval_cases d <;> decide

theorem intOfDigits_append_singleton (xs : List Char) (c : Char) :
    intOfDigits (xs ++ [c]) = 10 * intOfDigits xs + (c.toNat - 48) := by
  simp [intOfDigits, List.foldl_append]

theorem natDecimalChars_ne_nil (n : Nat) : natDecimalChars n ≠ [] := by
  rw [natDecimalChars]
  by_cases h : n < 10 <;> simp [h]

theorem natDecimalChars_all_digit (n : Nat) :
    (natDecimalChars n).all Char.isDigit = true := by
  rw [natDecimalChars]
  by_cases h : n < 10
  · simp [h, digitChar_isDigit h]
  · have ih := natDecimalChars_all_digit (n / 10)
    simp [h, ih, digitChar_isDigit (Nat.mod_lt n (by omega))]
termination_by n
decreasing_by simp_wf; exact Nat.div_lt_self (by omega) (by omega)

theorem intOfDigits_natDecimalChars (n : Nat) :
    intOfDigits (natDecimalChars n) = n := by
  rw [natDecimalChars]
  by_cases h : n < 10
  · simp [h, intOfDigits, digitChar_toNat h]
  · have ih := intOfDigits_natDecimalChars (n / 10)
    rw [if_neg h, intOfDigits_append_singleton, ih,
      digitChar_toNat (Nat.mod_lt n (by omega))]
    omega
termination_by n
decreasing_by simp_wf; exact Nat.div_lt_self (by omega) (by omega)


/-! Claim theorems. -/

/-- C1, counterexample: the claimed golden render string wraps the left
child of the multiplication node in `SingleFactor`, but `parse_factor`
builds `Factor(Integer(2),Integer(3))` with the bare primary as left
child, so the claimed literal does not match the actual render. -/
theorem C1_render_golden_counterexample :
    renderParse "1+2*3" ≠
      .ok "SingleRelation(AddTerm(SingleFactor(Integer(1)),Factor(SingleFactor(Integer(2)),Integer(3))))" := by
  decide

/-- C1 as amended: parsing "1+2*3" and rendering yields exactly
`SingleRelation(AddTerm(SingleFactor(Integer(1)),Factor(Integer(2),Integer(3))))`:
the left operand of a multiplication `Factor` node is the bare primary
(or accumulated factor), without a `SingleFactor` wrapper, and the
top-level pass-through wrapper is `SingleRelation`. -/
theorem C1_render_golden :
    renderParse "1+2*3" =
      .ok "SingleRelation(AddTerm(SingleFactor(Integer(1)),Factor(Integer(2),Integer(3))))" := by
  decide

/-- C2: contrary to the claim, the code does not raise `SyntaxError` when
input runs out at a primary position: `parse_primary` evaluates
`None.isdigit()`, so `parse("1+")` and `parse("")` abort with a Python
`AttributeError` (`attrError`), which is not a `SyntaxError`.  This is
the latent defect the specification itself documents in section 9. -/
theorem C2_end_of_input_crash :
    parseExpr "1+" = .error .attrError ∧
    parseExpr "" = .error .attrError ∧
    PError.attrError.isSyntaxError = false := by
  decide

/-- C3: multiplication binds tighter than addition and parentheses
override the precedence: "2+3*4" evaluates to 14 and "(2+3)*4" to 20. -/
theorem C3_precedence :
    evalParse "2+3*4" = .ok 14 ∧ evalParse "(2+3)*4" = .ok 20 := by
  decide

/-- C4: additive chains fold left-associatively in left-to-right textual
order: "10-3-2" parses as `(10-3)-2` and evaluates to 5, not 9. -/
theorem C4_left_associative :
    evalParse "10-3-2" = .ok 5 ∧
    evalParse "10-3-2" ≠ .ok 9 ∧
    parseExpr "10-3-2" =
      .ok (.SingleRelation (.SubTerm
        (.SubTerm (.SingleFactor (.Integer "10")) (.SingleFactor (.Integer "3")))
        (.SingleFactor (.Integer "2")))) := by
  decide

/-- C5: every `Less`, `Greater` and `Equal` node evaluates to the integer
1 when its comparison holds and to 0 otherwise (never any other value),
and concretely "3<5" evaluates to 1, "3>5" to 0, "4=4" to 1. -/
theorem C5_relation_truth_flag :
    (∀ l r : Expr,
      (calculate (.Less l r) = 1 ∨ calculate (.Less l r) = 0) ∧
      (calculate (.Less l r) = 1 ↔ calculate l < calculate r)) ∧
    (∀ l r : Expr,
      (calculate (.Greater l r) = 1 ∨ calculate (.Greater l r) = 0) ∧
      (calculate (.Greater l r) = 1 ↔ calculate l > calculate r)) ∧
    (∀ l r : Expr,
      (calculate (.Equal l r) = 1 ∨ calculate (.Equal l r) = 0) ∧
      (calculate (.Equal l r) = 1 ↔ calculate l = calculate r)) ∧
    evalParse "3<5" = .ok 1 ∧ evalParse "3>5" = .ok 0 ∧ evalParse "4=4" = .ok 1 := by
  refine ⟨fun l r => ?_, fun l r => ?_, fun l r => ?_, by decide, by decide, by decide⟩
  · by_cases h : calculate l < calculate r <;> simp [calculate, h]
  · by_cases h : calculate l > calculate r <;> simp [calculate, h]
  · by_cases h : calculate l = calculate r <;> simp [calculate, h]

/-- C6: for every non-negative integer `n`, parsing the decimal string
form of `n` (no leading sign) and evaluating the tree returns `n`; the
two closed conjuncts pin down the string form on examples. -/
theorem C6_numeral_roundtrip :
    (natDecimalRepr 0 = "0" ∧ natDecimalRepr 2103 = "2103") ∧
    ∀ n : Nat, evalParse (natDecimalRepr n) = .ok (Int.ofNat n) := by
  refine ⟨⟨?_, ?_⟩, fun n => ?_⟩
  · simp [natDecimalRepr, natDecimalChars]
    decide
  · simp [natDecimalRepr, natDecimalChars]
    decide
  · rw [natDecimalRepr,
      evalParse_digits _ (natDecimalChars_ne_nil n) (natDecimalChars_all_digit n),
      intOfDigits_natDecimalChars]

/-- C7: trailing tokens after a structurally complete top-level
expression are silently ignored, not reported: "1<2<3" parses
successfully to exactly the tree of "1<2"; the second `<` sits unconsumed
in the lookahead slot and the final `3` was never even scanned. -/
theorem C7_trailing_tokens_ignored :
    parseExpr "1<2<3" =
      .ok (.Less (.SingleTerm (.SingleFactor (.Integer "1")))
        (.SingleTerm (.SingleFactor (.Integer "2")))) ∧
    parseExpr "1<2<3" = parseExpr "1<2" ∧
    parseFull "1<2<3" =
      .ok (.Less (.SingleTerm (.SingleFactor (.Integer "1")))
        (.SingleTerm (.SingleFactor (.Integer "2"))),
        { rest := ['3'], token := some "<" }) := by
  decide

/-- C8, counterexample: the superscript two `'²'` is not a decimal digit
(nor one of the eight symbols, nor a space), yet the scanner raises no
`LexicalError` on it: Python `str.isdigit` accepts it, so it is consumed
as a number token instead. -/
theorem C8_lexical_error_counterexample :
    lexNextToken ['²'] = .ok (some "²", []) ∧
    lexNextToken ['²'] ≠ .error '²' ∧
    ('²').isDigit = false ∧ '²' ∉ ALLOWED_SYMBOLS ∧ '²' ≠ ' ' := by
  decide

/-- C8 as amended, restricted to ASCII characters (where the eight
symbols, the space and all claimed inputs live, and where the Python
digit test coincides with the decimal digits): when the scanner reaches
an ASCII character (after skipping spaces) that is not a decimal digit,
not one of the eight allowed symbols and not a space, it fails
immediately with a `LexicalError` carrying exactly that character and
produces no token; concretely, `parse("1&2")` fails with a lexical
error citing `&`.  Non-ASCII characters accepted by Python `str.isdigit`
(such as `'²'`) are instead consumed into number tokens. -/
theorem C8_lexical_error_ascii (pre : List Char) (c : Char) (post : List Char)
    (hpre : pre.all (fun x => x = ' ') = true) (hascii : c.toNat ≤ 127)
    (hnd : c.isDigit = false) (hna : c ∉ ALLOWED_SYMBOLS) (hns : c ≠ ' ') :
    lexNextToken (pre ++ c :: post) = .error c ∧
    parseExpr "1&2" = .error (.lexical '&') :=
  ⟨lexNextToken_bad_char pre c post hpre
    (pyCharIsDigit_eq_false_of_ascii hascii hnd) hna hns, by decide⟩

/-- C8 witness: the offending `&` after a space. -/
theorem C8_lexical_error_ascii_witness :
    lexNextToken ([' '] ++ '&' :: ['2']) = .error '&' ∧
    parseExpr "1&2" = .error (.lexical '&') :=
  C8_lexical_error_ascii [' '] '&' ['2'] (by decide) (by decide) (by decide)
    (by decide) (by decide)

/-- C9: once the scanner's input is exhausted (empty cursor), every call
to `next_token` returns the end marker and never raises; the returned
state is again the exhausted state with the end marker stored, so
arbitrarily many repeated calls all return the end marker. -/
theorem C9_end_of_input_idempotent :
    lexNextToken [] = .ok (none, []) ∧
    ∀ tk : Option String, pNextToken ⟨[], tk⟩ = .ok ⟨[], none⟩ :=
  ⟨rfl, fun _ => rfl⟩

/-- C10: every nonempty run of decimal digit characters, leading zeros
included, parses successfully and evaluates to its decimal value. -/
theorem C10_digit_runs (ds : List Char) (hne : ds ≠ [])
    (hd : ds.all Char.isDigit = true) :
    evalParse (String.mk ds) = .ok (Int.ofNat (intOfDigits ds)) :=
  evalParse_digits ds hne hd

/-- C10 witness: "007" evaluates to 7. -/
theorem C10_digit_runs_witness :
    evalParse "007" = .ok 7 :=
  C10_digit_runs ['0', '0', '7'] (by decide) (by decide)

end SimpleExprParser
